import Mathlib

/-!
# httpclient: the status-checking round tripper

A shallow embedding of `httpclient/roundtripper.go`: the default policy table
`AllowableStatusCodes`, `StatusCode.String`, `NewStatusCheckingTripper`,
`StatusCheckingTripper.RoundTrip` and `handleBadStatusCode`, together with the
small part of Go's `errors`, `fmt` and `net/http` packages that they use.

Conventions.
* A Go pointer that may be nil is an `Option`; dereferencing `none` is a panic.
* A Go `error` is an `Option GoError`; `none` is the nil error.
* Go's `int` status codes are `Int`; no arithmetic is performed on them.
* A Go map is an association list searched from the front with exact key equality.
* The underlying transport is an arbitrary, possibly stateful function: it takes
  the state of the world before the call and gives its outcome and the state after.
-/

namespace httpclient

/-! ## Go's `errors` and `fmt.Errorf` -/

/-- Go error values, as far as this package builds them.
`errorString addr s` is the `*errorString` made by `errors.New(s)`; such values are
compared by pointer, and `addr` stands for the address.
`wrapError msg err` is the `*wrapError` made by `fmt.Errorf` with a single `%w` verb:
`msg` is the formatted text and `err` the operand of `%w`. -/
inductive GoError where
  | errorString (addr : Nat) (s : String)
  | wrapError (msg : String) (err : GoError)
  deriving DecidableEq, Repr

namespace GoError

/-- The method `Error() string`. -/
def Error : GoError → String
  | errorString _ s => s
  | wrapError msg _ => msg

/-- The method `Unwrap() error`, which only `*wrapError` has. -/
def Unwrap : GoError → Option GoError
  | errorString _ _ => none
  | wrapError _ err => some err

/-- The loop of `errors.Is` for a non-nil `err` and a non-nil `target`: compare, then
unwrap and repeat until the chain ends. -/
def chainHas : GoError → GoError → Bool
  | errorString addr s, target => decide (errorString addr s = target)
  | wrapError msg err, target => decide (wrapError msg err = target) || chainHas err target

end GoError

/-- Go's `errors.Is(err, target)`: when either side is nil the answer is `err == target`. -/
def errorsIs : Option GoError → Option GoError → Bool
  | some err, some target => err.chainHas target
  | none, none => true
  | _, _ => false

/-! ## The constants of `net/http` that the package names -/

def MethodGet : String := "GET"
def MethodHead : String := "HEAD"
def MethodPost : String := "POST"
def MethodPut : String := "PUT"
def MethodPatch : String := "PATCH"
def MethodDelete : String := "DELETE"
def MethodConnect : String := "CONNECT"
def MethodOptions : String := "OPTIONS"
def MethodTrace : String := "TRACE"

def StatusOK : Int := 200
def StatusCreated : Int := 201
def StatusAccepted : Int := 202
def StatusNoContent : Int := 204
def StatusBadRequest : Int := 400
def StatusInternalServerError : Int := 500

/-- Go's `http.StatusText`: the registered name of a status code, and the empty
string for every code that has none. -/
def StatusText (code : Int) : String :=
  if code = 100 then "Continue"
  else if code = 101 then "Switching Protocols"
  else if code = 102 then "Processing"
  else if code = 103 then "Early Hints"
  else if code = 200 then "OK"
  else if code = 201 then "Created"
  else if code = 202 then "Accepted"
  else if code = 203 then "Non-Authoritative Information"
  else if code = 204 then "No Content"
  else if code = 205 then "Reset Content"
  else if code = 206 then "Partial Content"
  else if code = 207 then "Multi-Status"
  else if code = 208 then "Already Reported"
  else if code = 226 then "IM Used"
  else if code = 300 then "Multiple Choices"
  else if code = 301 then "Moved Permanently"
  else if code = 302 then "Found"
  else if code = 303 then "See Other"
  else if code = 304 then "Not Modified"
  else if code = 305 then "Use Proxy"
  else if code = 307 then "Temporary Redirect"
  else if code = 308 then "Permanent Redirect"
  else if code = 400 then "Bad Request"
  else if code = 401 then "Unauthorized"
  else if code = 402 then "Payment Required"
  else if code = 403 then "Forbidden"
  else if code = 404 then "Not Found"
  else if code = 405 then "Method Not Allowed"
  else if code = 406 then "Not Acceptable"
  else if code = 407 then "Proxy Authentication Required"
  else if code = 408 then "Request Timeout"
  else if code = 409 then "Conflict"
  else if code = 410 then "Gone"
  else if code = 411 then "Length Required"
  else if code = 412 then "Precondition Failed"
  else if code = 413 then "Request Entity Too Large"
  else if code = 414 then "Request URI Too Long"
  else if code = 415 then "Unsupported Media Type"
  else if code = 416 then "Requested Range Not Satisfiable"
  else if code = 417 then "Expectation Failed"
  else if code = 418 then "I\x27m a teapot"
  else if code = 421 then "Misdirected Request"
  else if code = 422 then "Unprocessable Entity"
  else if code = 423 then "Locked"
  else if code = 424 then "Failed Dependency"
  else if code = 425 then "Too Early"
  else if code = 426 then "Upgrade Required"
  else if code = 428 then "Precondition Required"
  else if code = 429 then "Too Many Requests"
  else if code = 431 then "Request Header Fields Too Large"
  else if code = 451 then "Unavailable For Legal Reasons"
  else if code = 500 then "Internal Server Error"
  else if code = 501 then "Not Implemented"
  else if code = 502 then "Bad Gateway"
  else if code = 503 then "Service Unavailable"
  else if code = 504 then "Gateway Timeout"
  else if code = 505 then "HTTP Version Not Supported"
  else if code = 506 then "Variant Also Negotiates"
  else if code = 507 then "Insufficient Storage"
  else if code = 508 then "Loop Detected"
  else if code = 510 then "Not Extended"
  else if code = 511 then "Network Authentication Required"
  else ""

/-- The fields of `http.Request` that matter here. -/
structure Request where
  Method : String
  URL : String
  deriving DecidableEq, Repr

/-- The fields of `http.Response` that matter here. -/
structure Response where
  Status : String
  StatusCode : Int
  Proto : String
  deriving DecidableEq, Repr

/-- How a call of a `RoundTrip` method ends: with a run-time panic, or by returning the
Go pair `(*http.Response, error)`. -/
inductive Outcome where
  | panicked
  | returned (response : Option Response) (err : Option GoError)
  deriving DecidableEq, Repr

/-- The interface `http.RoundTripper`: its one method takes the request pointer and, run
in a world `w`, gives an outcome and the world after the call. -/
abbrev RoundTripper (σ : Type) := Option Request → σ → Outcome × σ

/-! ## `roundtripper.go` -/

/-- The sentinel `ErrStatusCode`. -/
def ErrStatusCode : GoError :=
  .errorString 0 "the status code returned is not acceptable for the request method"

/-- The sentinel `ErrServerError`, a second and distinct `errors.New` value. -/
def ErrServerError : GoError :=
  .errorString 1 "the server is returning a server error"

/-- The type `StatusCode`, a Go `int`. -/
abbrev StatusCode := Int

/-- The method `StatusCode.String`. -/
def StatusCode.String (s : StatusCode) : String := StatusText s

/-- The type `StatusSet`, a map from `StatusCode` to the empty struct: only its keys
matter, and they are listed. -/
abbrev StatusSet := List StatusCode

/-- The package variable `AllowableStatusCodes`. -/
def AllowableStatusCodes : List (String × StatusSet) :=
  [ (MethodGet, [StatusOK, StatusAccepted, StatusNoContent]),
    (MethodHead, [StatusOK, StatusNoContent]),
    (MethodPost, [StatusOK, StatusCreated, StatusAccepted, StatusNoContent]),
    (MethodPut, [StatusOK, StatusAccepted, StatusCreated, StatusNoContent]),
    (MethodPatch, [StatusOK, StatusAccepted, StatusCreated, StatusNoContent]),
    (MethodDelete, [StatusOK, StatusAccepted, StatusNoContent]),
    (MethodConnect, [StatusOK, StatusAccepted, StatusNoContent]),
    (MethodTrace, [StatusOK, StatusAccepted, StatusNoContent]) ]

/-- The struct `StatusCheckingTripper`. -/
structure StatusCheckingTripper (σ : Type) where
  AllowableStatus : List (String × StatusSet)
  Base : RoundTripper σ

/-- The constructor `NewStatusCheckingTripper`. -/
def NewStatusCheckingTripper {σ : Type} (tripper : RoundTripper σ) : StatusCheckingTripper σ :=
  { AllowableStatus := AllowableStatusCodes, Base := tripper }

/-- The function `handleBadStatusCode`. -/
def handleBadStatusCode (status : Int) : GoError :=
  if status ≥ StatusInternalServerError then ErrServerError else ErrStatusCode

/-- The error built on the transport-failure path:
`fmt.Errorf("could not process request to check status, got (%w)", err)`. -/
def transportFailure (err : GoError) : GoError :=
  .wrapError ("could not process request to check status, got (" ++ err.Error ++ ")") err

/-- The error built on the rejected-status path:
`fmt.Errorf("(%w) (%s), is not an acceptable status for method (%s)",
handleBadStatusCode(code), StatusCode(code), method)`. -/
def badStatus (code : Int) (method : String) : GoError :=
  .wrapError
    ("(" ++ (handleBadStatusCode code).Error ++ ") (" ++ StatusCode.String code
      ++ "), is not an acceptable status for method (" ++ method ++ ")")
    (handleBadStatusCode code)

/-- The method `StatusCheckingTripper.RoundTrip`. -/
def StatusCheckingTripper.RoundTrip {σ : Type} (s : StatusCheckingTripper σ)
    (request : Option Request) (w : σ) : Outcome × σ :=
  match request with
  | none => (.panicked, w)
  | some req =>
    match s.AllowableStatus.lookup req.Method with
    | none => s.Base request w
    | some allowableCodes =>
      match s.Base request w with
      | (.panicked, w1) => (.panicked, w1)
      | (.returned response (some err), w1) =>
        (.returned response (some (transportFailure err)), w1)
      | (.returned none none, w1) => (.panicked, w1)
      | (.returned (some resp) none, w1) =>
        if resp.StatusCode ∈ allowableCodes then
          (.returned (some resp) none, w1)
        else
          (.returned (some resp) (some (badStatus resp.StatusCode req.Method)), w1)

/-! ## Stub transports and sample values, after `roundtripper_test.go` -/

/-- A transport in the manner of the test file's `roundTripperFunc` closures: it returns
the given pair whatever the request is, and counts its calls in the world. -/
def stubTripper (response : Option Response) (err : Option GoError) : RoundTripper Nat :=
  fun _ calls => (.returned response err, calls + 1)

/-- A response with the given status code, built as the tests build theirs. -/
def responseWith (code : Int) : Response :=
  { Status := StatusText code, StatusCode := code, Proto := "https" }

/-- A request with the given method to the tests' address. -/
def requestWith (method : String) : Request :=
  { Method := method, URL := "https://example.com" }

/-- The error of the last test, `errors.New("an error")`, at an address of its own. -/
def anError : GoError := .errorString 2 "an error"

/-- A tripper whose policy is not the default one: GET also accepts 503. -/
def lenientTripper (tripper : RoundTripper Nat) : StatusCheckingTripper Nat :=
  { AllowableStatus := [(MethodGet, [StatusOK, 503])], Base := tripper }

/-! ## Reading an error message -/

/-- Whether the first list of characters starts the second. -/
def startsWith : List Char → List Char → Bool
  | [], _ => true
  | _ :: _, [] => false
  | a :: as, b :: bs => a == b && startsWith as bs

/-- Whether the characters `needle` occur, in a row, somewhere in the list. -/
def occursIn (needle : List Char) : List Char → Bool
  | [] => needle.isEmpty
  | c :: cs => startsWith needle (c :: cs) || occursIn needle cs

/-- Whether the text `needle` occurs in the text `msg`. -/
def mentions (msg needle : String) : Bool := occursIn needle.data msg.data

/-- The reading of "the message identifies the status code" taken from the
specification: the message shows the number in decimal, or the code has a non-empty
symbolic name and the message shows that name. -/
def identifiesStatus (msg : String) (code : Int) : Bool :=
  mentions msg (toString code) || (StatusText code != "" && mentions msg (StatusText code))

/-! ## Transports for observing calls and for decorating twice -/

/-- A transport that keeps a record of its calls: it runs `tripper` on the first part of
the world and appends the request pointer it was handed to the log in the second part. -/
def recording {σ : Type} (tripper : RoundTripper σ) :
    RoundTripper (σ × List (Option Request)) :=
  fun request wl => ((tripper request wl.1).1, ((tripper request wl.1).2, wl.2 ++ [request]))

/-- A `StatusCheckingTripper` with the given policy and base, taken as the
`http.RoundTripper` that its method `RoundTrip` makes of it. -/
def decorate {σ : Type} (policy : List (String × StatusSet)) (tripper : RoundTripper σ) :
    RoundTripper σ :=
  (StatusCheckingTripper.mk policy tripper).RoundTrip

/-! ## Lemmas on errors -/

theorem chainHas_self (e : GoError) : e.chainHas e = true := by
  cases e <;> simp [GoError.chainHas]

theorem errorsIs_self (e : GoError) : errorsIs (some e) (some e) = true := by
  simp [errorsIs, chainHas_self]

theorem errorsIs_wrapError (msg : String) (inner target : GoError)
    (h : errorsIs (some inner) (some target) = true) :
    errorsIs (some (.wrapError msg inner)) (some target) = true := by
  simp only [errorsIs] at h
  simp [errorsIs, GoError.chainHas, h]

theorem handleBadStatusCode_of_ge (code : Int) (h : code ≥ 500) :
    handleBadStatusCode code = ErrServerError :=
  if_pos h

theorem handleBadStatusCode_of_lt (code : Int) (h : code < 500) :
    handleBadStatusCode code = ErrStatusCode :=
  if_neg (not_le.mpr h)

theorem errorsIs_badStatus_ErrServerError (code : Int) (method : String) :
    errorsIs (some (badStatus code method)) (some ErrServerError) = decide (code ≥ 500) := by
  rcases le_or_lt 500 code with h | h
  · simp [errorsIs, badStatus, GoError.chainHas, handleBadStatusCode_of_ge code h,
      chainHas_self, h]
  · have h2 : ¬ code ≥ 500 := not_le.mpr h
    simp [errorsIs, badStatus, GoError.chainHas, handleBadStatusCode_of_lt code h,
      ErrServerError, ErrStatusCode, h]

theorem errorsIs_badStatus_ErrStatusCode (code : Int) (method : String) :
    errorsIs (some (badStatus code method)) (some ErrStatusCode) = decide (code < 500) := by
  rcases le_or_lt 500 code with h | h
  · have h2 : ¬ code < 500 := not_lt.mpr h
    simp [errorsIs, badStatus, GoError.chainHas, handleBadStatusCode_of_ge code h,
      ErrServerError, ErrStatusCode, h]
  · simp [errorsIs, badStatus, GoError.chainHas, handleBadStatusCode_of_lt code h,
      chainHas_self, h]

/-! ## Lemmas on maps and on texts -/

theorem mem_of_lookup_eq_some {β : Type} (k : String) (v : β) :
    ∀ l : List (String × β), l.lookup k = some v → (k, v) ∈ l
  | [], h => by simp at h
  | (k1, v1) :: l, h => by
    by_cases hk : k = k1
    · subst hk
      simp [List.lookup] at h
      simp [h]
    · have hk1 : (k == k1) = false := by simpa using hk
      simp only [List.lookup, hk1] at h
      exact List.mem_cons_of_mem _ (mem_of_lookup_eq_some k v l h)

theorem default_sets_2xx :
    ∀ p ∈ AllowableStatusCodes, p.2 ≠ [] ∧ ∀ c ∈ p.2, 200 ≤ c ∧ c ≤ 299 := by
  decide

theorem startsWith_append (n b : List Char) : startsWith n (n ++ b) = true := by
  induction n with
  | nil => simp [startsWith]
  | cons a as ih => simp [startsWith, ih]

theorem occursIn_append (n b : List Char) :
    ∀ a : List Char, occursIn n (a ++ (n ++ b)) = true
  | [] => by
    cases n with
    | nil => cases b <;> simp [occursIn, startsWith]
    | cons x xs =>
      have h := startsWith_append (x :: xs) b
      simp only [List.cons_append] at h
      simp [occursIn, h]
  | c :: cs => by
    simp [occursIn, occursIn_append n b cs]

theorem mentions_append (a n b : String) : mentions (a ++ n ++ b) n = true := by
  simp [mentions, String.data_append, List.append_assoc, occursIn_append]

theorem badStatus_Error (code : Int) (method : String) :
    (badStatus code method).Error =
      "(" ++ (handleBadStatusCode code).Error ++ ") (" ++ StatusText code
        ++ "), is not an acceptable status for method (" ++ method ++ ")" :=
  rfl

theorem mentions_badStatus_method (code : Int) (method : String) :
    mentions (badStatus code method).Error method = true := by
  rw [badStatus_Error]
  exact mentions_append _ method ")"

theorem mentions_badStatus_text (code : Int) (method : String) :
    mentions (badStatus code method).Error (StatusText code) = true := by
  have h : (badStatus code method).Error =
      ("(" ++ (handleBadStatusCode code).Error ++ ") (") ++ StatusText code
        ++ ("), is not an acceptable status for method (" ++ method ++ ")") := by
    rw [badStatus_Error]
    simp only [String.append_assoc]
  rw [h]
  exact mentions_append _ (StatusText code) _

/-! ## The four returning paths of `RoundTrip` -/

section paths

variable {σ : Type} (s : StatusCheckingTripper σ) (req : Request) (w w1 : σ)

theorem roundTrip_unlisted (hpol : s.AllowableStatus.lookup req.Method = none) :
    s.RoundTrip (some req) w = s.Base (some req) w := by
  simp [StatusCheckingTripper.RoundTrip, hpol]

theorem roundTrip_failed (allowed : StatusSet) (response : Option Response) (e : GoError)
    (hpol : s.AllowableStatus.lookup req.Method = some allowed)
    (hbase : s.Base (some req) w = (.returned response (some e), w1)) :
    s.RoundTrip (some req) w = (.returned response (some (transportFailure e)), w1) := by
  simp [StatusCheckingTripper.RoundTrip, hpol, hbase]

theorem roundTrip_accepted (allowed : StatusSet) (resp : Response)
    (hpol : s.AllowableStatus.lookup req.Method = some allowed)
    (hbase : s.Base (some req) w = (.returned (some resp) none, w1))
    (hmem : resp.StatusCode ∈ allowed) :
    s.RoundTrip (some req) w = (.returned (some resp) none, w1) := by
  simp [StatusCheckingTripper.RoundTrip, hpol, hbase, hmem]

theorem roundTrip_rejected (allowed : StatusSet) (resp : Response)
    (hpol : s.AllowableStatus.lookup req.Method = some allowed)
    (hbase : s.Base (some req) w = (.returned (some resp) none, w1))
    (hmem : resp.StatusCode ∉ allowed) :
    s.RoundTrip (some req) w =
      (.returned (some resp) (some (badStatus resp.StatusCode req.Method)), w1) := by
  simp [StatusCheckingTripper.RoundTrip, hpol, hbase, hmem]

end paths

/-! ## The contract of `RoundTrip` -/

/-- C1: when the request's method has an entry in the policy, the underlying transport
returns a response with a nil error, and the response's status code is in the method's
allowed set, `RoundTrip` returns that same response and a nil error (and leaves the
world as the transport left it). -/
theorem roundTrip_allowed_status {σ : Type} (s : StatusCheckingTripper σ) (req : Request)
    (w w1 : σ) (allowed : StatusSet) (resp : Response)
    (hpol : s.AllowableStatus.lookup req.Method = some allowed)
    (hbase : s.Base (some req) w = (.returned (some resp) none, w1))
    (hmem : resp.StatusCode ∈ allowed) :
    s.RoundTrip (some req) w = (.returned (some resp) none, w1) :=
  roundTrip_accepted s req w w1 allowed resp hpol hbase hmem

/-- The scenario of C1: default policy, GET, the transport answers 200. -/
theorem roundTrip_allowed_status_witness :
    (NewStatusCheckingTripper (stubTripper (some (responseWith 200)) none)).RoundTrip
        (some (requestWith "GET")) 0
      = (.returned (some (responseWith 200)) none, 1) :=
  roundTrip_allowed_status (NewStatusCheckingTripper (stubTripper (some (responseWith 200)) none))
    (requestWith "GET") 0 1 [200, 202, 204] (responseWith 200)
    (by decide) (by decide) (by decide)

/-- C2: when the request's method has an entry in the policy and the underlying
transport returns a response with a nil error whose status code is outside the
method's allowed set and below 500, `RoundTrip` returns that same (non-nil) response
together with a non-nil error that matches `ErrStatusCode` under `errors.Is`. -/
theorem roundTrip_unacceptable_status {σ : Type} (s : StatusCheckingTripper σ)
    (req : Request) (w w1 : σ) (allowed : StatusSet) (resp : Response)
    (hpol : s.AllowableStatus.lookup req.Method = some allowed)
    (hbase : s.Base (some req) w = (.returned (some resp) none, w1))
    (hmem : resp.StatusCode ∉ allowed) (hlt : resp.StatusCode < 500) :
    ∃ err : GoError,
      s.RoundTrip (some req) w = (.returned (some resp) (some err), w1) ∧
      errorsIs (some err) (some ErrStatusCode) = true := by
  refine ⟨badStatus resp.StatusCode req.Method,
    roundTrip_rejected s req w w1 allowed resp hpol hbase hmem, ?_⟩
  rw [errorsIs_badStatus_ErrStatusCode]
  exact decide_eq_true hlt

/-- The scenario of C2, after `TestStatusCheckingTripper_RoundTripFails`: default
policy, GET, the transport answers 400. -/
theorem roundTrip_unacceptable_status_witness :
    ∃ err : GoError,
      (NewStatusCheckingTripper (stubTripper (some (responseWith 400)) none)).RoundTrip
          (some (requestWith "GET")) 0
        = (.returned (some (responseWith 400)) (some err), 1) ∧
      errorsIs (some err) (some ErrStatusCode) = true :=
  roundTrip_unacceptable_status
    (NewStatusCheckingTripper (stubTripper (some (responseWith 400)) none))
    (requestWith "GET") 0 1 [200, 202, 204] (responseWith 400)
    (by decide) (by decide) (by decide) (by decide)

/-- C3, as stated, fails: a policy may list a code of 500 or more. With GET allowed to
answer 503, the transport's 503 comes back with a nil error, not with a `ErrServerError`. -/
theorem roundTrip_server_status_counterexample :
    (lenientTripper (stubTripper (some (responseWith 503)) none)).AllowableStatus.lookup
        (requestWith "GET").Method = some [200, 503] ∧
    (lenientTripper (stubTripper (some (responseWith 503)) none)).Base
        (some (requestWith "GET")) 0 = (.returned (some (responseWith 503)) none, 1) ∧
    (responseWith 503).StatusCode ≥ 500 ∧
    (lenientTripper (stubTripper (some (responseWith 503)) none)).RoundTrip
        (some (requestWith "GET")) 0 = (.returned (some (responseWith 503)) none, 1) ∧
    ¬ ∃ err : GoError,
      (lenientTripper (stubTripper (some (responseWith 503)) none)).RoundTrip
          (some (requestWith "GET")) 0 = (.returned (some (responseWith 503)) (some err), 1) ∧
      errorsIs (some err) (some ErrServerError) = true := by
  refine ⟨by decide, by decide, by decide, by decide, ?_⟩
  rintro ⟨err, h, -⟩
  have h1 : (lenientTripper (stubTripper (some (responseWith 503)) none)).RoundTrip
      (some (requestWith "GET")) 0 = (.returned (some (responseWith 503)) none, 1) := by
    decide
  rw [h1] at h
  cases h

/-- C3, amended: when the request's method has an entry in the policy and the underlying
transport returns a response with a nil error whose status code is 500 or more and is
not in the method's allowed set, `RoundTrip` returns that same response together
with a non-nil error that matches `ErrServerError` under `errors.Is`. -/
theorem roundTrip_server_status {σ : Type} (s : StatusCheckingTripper σ)
    (req : Request) (w w1 : σ) (allowed : StatusSet) (resp : Response)
    (hpol : s.AllowableStatus.lookup req.Method = some allowed)
    (hbase : s.Base (some req) w = (.returned (some resp) none, w1))
    (hmem : resp.StatusCode ∉ allowed) (hge : resp.StatusCode ≥ 500) :
    ∃ err : GoError,
      s.RoundTrip (some req) w = (.returned (some resp) (some err), w1) ∧
      errorsIs (some err) (some ErrServerError) = true := by
  refine ⟨badStatus resp.StatusCode req.Method,
    roundTrip_rejected s req w w1 allowed resp hpol hbase hmem, ?_⟩
  rw [errorsIs_badStatus_ErrServerError]
  exact decide_eq_true hge

/-- The scenario of C3, after `TestStatusCheckingTripper_RoundTripFailsServerError`:
default policy, GET, the transport answers 500. -/
theorem roundTrip_server_status_witness :
    ∃ err : GoError,
      (NewStatusCheckingTripper (stubTripper (some (responseWith 500)) none)).RoundTrip
          (some (requestWith "GET")) 0
        = (.returned (some (responseWith 500)) (some err), 1) ∧
      errorsIs (some err) (some ErrServerError) = true :=
  roundTrip_server_status
    (NewStatusCheckingTripper (stubTripper (some (responseWith 500)) none))
    (requestWith "GET") 0 1 [200, 202, 204] (responseWith 500)
    (by decide) (by decide) (by decide) (by decide)

/-- C4: when the request's method has no entry in the policy, `RoundTrip` gives exactly
what the underlying transport gives for that request: the same response, the same
error (nil stays nil, a non-nil error is not wrapped), the same world afterwards;
the status code plays no part. -/
theorem roundTrip_no_policy {σ : Type} (s : StatusCheckingTripper σ) (req : Request) (w : σ)
    (hpol : s.AllowableStatus.lookup req.Method = none) :
    s.RoundTrip (some req) w = s.Base (some req) w :=
  roundTrip_unlisted s req w hpol

/-- The scenario of C4, after `TestStatusCheckingTripper_CustomMethodSucceeds`: default
policy, method CUSTOM, the transport answers 400, and the error stays nil. -/
theorem roundTrip_no_policy_witness :
    AllowableStatusCodes.lookup "CUSTOM" = none ∧
    (NewStatusCheckingTripper (stubTripper (some (responseWith 400)) none)).RoundTrip
        (some (requestWith "CUSTOM")) 0
      = (.returned (some (responseWith 400)) none, 1) :=
  ⟨by decide,
   roundTrip_no_policy (NewStatusCheckingTripper (stubTripper (some (responseWith 400)) none))
    (requestWith "CUSTOM") 0 (by decide)⟩

/-- C5: when the request's method has an entry in the policy and the underlying
transport returns a non-nil error `e` with any response pointer (nil, or a response
with any status code), `RoundTrip` returns that response pointer unchanged together
with the error `transportFailure e`: a non-nil error that is built from `e` alone,
so that no status code takes part in it, whose `Unwrap` is `e` and which matches `e`
under `errors.Is`. -/
theorem roundTrip_transport_error {σ : Type} (s : StatusCheckingTripper σ)
    (req : Request) (w w1 : σ) (allowed : StatusSet) (response : Option Response)
    (e : GoError)
    (hpol : s.AllowableStatus.lookup req.Method = some allowed)
    (hbase : s.Base (some req) w = (.returned response (some e), w1)) :
    s.RoundTrip (some req) w = (.returned response (some (transportFailure e)), w1) ∧
    (transportFailure e).Unwrap = some e ∧
    errorsIs (some (transportFailure e)) (some e) = true :=
  ⟨roundTrip_failed s req w w1 allowed response e hpol hbase, rfl,
   errorsIs_wrapError _ e e (errorsIs_self e)⟩

/-- The scenario of C5, after `TestStatusCheckingTripper_RoundTripFailsWhenTripperFails`:
default policy, GET, the transport answers 200 together with an error. -/
theorem roundTrip_transport_error_witness :
    (NewStatusCheckingTripper (stubTripper (some (responseWith 200)) (some anError))).RoundTrip
        (some (requestWith "GET")) 0
      = (.returned (some (responseWith 200)) (some (transportFailure anError)), 1) ∧
    (transportFailure anError).Unwrap = some anError ∧
    errorsIs (some (transportFailure anError)) (some anError) = true :=
  roundTrip_transport_error
    (NewStatusCheckingTripper (stubTripper (some (responseWith 200)) (some anError)))
    (requestWith "GET") 0 1 [200, 202, 204] (some (responseWith 200)) anError
    (by decide) (by decide)

/-- C6, as stated, fails: under the default policy the error for GET and status 500
matches `ErrServerError` and does not match `ErrStatusCode`. -/
theorem roundTrip_server_error_kind_counterexample :
    (NewStatusCheckingTripper (stubTripper (some (responseWith 500)) none)).RoundTrip
        (some (requestWith "GET")) 0
      = (.returned (some (responseWith 500)) (some (badStatus 500 "GET")), 1) ∧
    errorsIs (some (badStatus 500 "GET")) (some ErrServerError) = true ∧
    errorsIs (some (badStatus 500 "GET")) (some ErrStatusCode) = false := by
  decide

/-- C6, amended: for a request whose method has a policy entry and whose error-free
response has a status of 500 or more outside the allowed set, the error returned by
`RoundTrip` matches `ErrServerError` under `errors.Is` and does not match
`ErrStatusCode`: the two kinds are separate sentinels and the error wraps one of them. -/
theorem roundTrip_server_error_kind {σ : Type} (s : StatusCheckingTripper σ)
    (req : Request) (w w1 : σ) (allowed : StatusSet) (resp : Response)
    (hpol : s.AllowableStatus.lookup req.Method = some allowed)
    (hbase : s.Base (some req) w = (.returned (some resp) none, w1))
    (hmem : resp.StatusCode ∉ allowed) (hge : resp.StatusCode ≥ 500) :
    ∃ err : GoError,
      s.RoundTrip (some req) w = (.returned (some resp) (some err), w1) ∧
      errorsIs (some err) (some ErrServerError) = true ∧
      errorsIs (some err) (some ErrStatusCode) = false := by
  refine ⟨badStatus resp.StatusCode req.Method,
    roundTrip_rejected s req w w1 allowed resp hpol hbase hmem, ?_, ?_⟩
  · rw [errorsIs_badStatus_ErrServerError]
    exact decide_eq_true hge
  · rw [errorsIs_badStatus_ErrStatusCode]
    exact decide_eq_false (not_lt.mpr hge)

/-- An instance of the amended C6: default policy, POST, the transport answers 502. -/
theorem roundTrip_server_error_kind_witness :
    ∃ err : GoError,
      (NewStatusCheckingTripper (stubTripper (some (responseWith 502)) none)).RoundTrip
          (some (requestWith "POST")) 0
        = (.returned (some (responseWith 502)) (some err), 1) ∧
      errorsIs (some err) (some ErrServerError) = true ∧
      errorsIs (some err) (some ErrStatusCode) = false :=
  roundTrip_server_error_kind
    (NewStatusCheckingTripper (stubTripper (some (responseWith 502)) none))
    (requestWith "POST") 0 1 [200, 201, 202, 204] (responseWith 502)
    (by decide) (by decide) (by decide) (by decide)

/-- C7: on each returning path of `RoundTrip` (the method has no policy entry, or the
transport returned a non-nil error, or it returned a response whose status is then
accepted or rejected) `RoundTrip` returns, and the response pointer it returns is the
one the underlying transport returned; so it is not replaced by nil when an error
comes with it. -/
theorem roundTrip_response_kept {σ : Type} (s : StatusCheckingTripper σ)
    (req : Request) (w w1 : σ) (response : Option Response) (err : Option GoError)
    (hbase : s.Base (some req) w = (.returned response err, w1))
    (hpath : s.AllowableStatus.lookup req.Method = none ∨ err ≠ none ∨ response ≠ none) :
    ∃ err1 : Option GoError,
      s.RoundTrip (some req) w = (.returned response err1, w1) := by
  cases hpol : s.AllowableStatus.lookup req.Method with
  | none => exact ⟨err, by rw [roundTrip_unlisted s req w hpol, hbase]⟩
  | some allowed =>
    cases err with
    | some e => exact ⟨_, roundTrip_failed s req w w1 allowed response e hpol hbase⟩
    | none =>
      cases response with
      | none => simp [hpol] at hpath
      | some resp =>
        by_cases hmem : resp.StatusCode ∈ allowed
        · exact ⟨_, roundTrip_accepted s req w w1 allowed resp hpol hbase hmem⟩
        · exact ⟨_, roundTrip_rejected s req w w1 allowed resp hpol hbase hmem⟩

/-- An instance of C7 on the rejected path: default policy, DELETE, the transport
answers 404, and the 404 response comes back beside the error. -/
theorem roundTrip_response_kept_witness :
    ∃ err1 : Option GoError,
      (NewStatusCheckingTripper (stubTripper (some (responseWith 404)) none)).RoundTrip
          (some (requestWith "DELETE")) 0
        = (.returned (some (responseWith 404)) err1, 1) :=
  roundTrip_response_kept
    (NewStatusCheckingTripper (stubTripper (some (responseWith 404)) none))
    (requestWith "DELETE") 0 1 (some (responseWith 404)) none
    (by decide) (by decide)

/-- C8: the policy that `NewStatusCheckingTripper` installs is `AllowableStatusCodes`;
that table has an entry for each of GET, HEAD, POST, PUT, PATCH, DELETE, CONNECT and
TRACE, each entry's set is non-empty and holds only codes from 200 to 299; so no set of
the table holds a code of 500 or more, and under the default policy a response with
such a code, for a method of the table, comes back with a non-nil error. -/
theorem default_policy_success_codes :
    (∀ (σ : Type) (tripper : RoundTripper σ),
      (NewStatusCheckingTripper tripper).AllowableStatus = AllowableStatusCodes) ∧
    (∀ m ∈ [MethodGet, MethodHead, MethodPost, MethodPut, MethodPatch, MethodDelete,
        MethodConnect, MethodTrace],
      ∃ set : StatusSet, AllowableStatusCodes.lookup m = some set ∧ set ≠ [] ∧
        ∀ c ∈ set, 200 ≤ c ∧ c ≤ 299) ∧
    (∀ (m : String) (set : StatusSet) (c : Int),
      AllowableStatusCodes.lookup m = some set → c ≥ 500 → c ∉ set) ∧
    (∀ (σ : Type) (tripper : RoundTripper σ) (req : Request) (w w1 : σ) (set : StatusSet)
        (resp : Response),
      AllowableStatusCodes.lookup req.Method = some set →
      tripper (some req) w = (.returned (some resp) none, w1) →
      resp.StatusCode ≥ 500 →
      ∃ err : GoError, (NewStatusCheckingTripper tripper).RoundTrip (some req) w
        = (.returned (some resp) (some err), w1)) := by
  have key : ∀ (m : String) (set : StatusSet) (c : Int),
      AllowableStatusCodes.lookup m = some set → c ≥ 500 → c ∉ set := by
    intro m set c hl hc hmem
    have h : (200 : Int) ≤ c ∧ c ≤ (299 : Int) :=
      (default_sets_2xx (m, set) (mem_of_lookup_eq_some m set _ hl)).2 c hmem
    omega
  refine ⟨fun _ _ => rfl, ?_, key, ?_⟩
  · intro m hm
    simp only [List.mem_cons, List.mem_singleton, List.not_mem_nil, or_false] at hm
    rcases hm with h | h | h | h | h | h | h | h <;> subst h <;>
      exact ⟨_, rfl, by decide, by decide⟩
  · intro σ tripper req w w1 set resp hl hb hc
    exact ⟨_, roundTrip_rejected (NewStatusCheckingTripper tripper) req w w1 set resp hl hb
      (key _ _ _ hl hc)⟩

/-- An instance of C8: TRACE has the entry 200, 202, 204, which does not hold 503, and
a 503 answer to a TRACE request comes back with a non-nil error. -/
theorem default_policy_success_codes_witness :
    AllowableStatusCodes.lookup "TRACE" = some [200, 202, 204] ∧
    (503 : Int) ∉ ([200, 202, 204] : StatusSet) ∧
    ∃ err : GoError,
      (NewStatusCheckingTripper (stubTripper (some (responseWith 503)) none)).RoundTrip
          (some (requestWith "TRACE")) 0
        = (.returned (some (responseWith 503)) (some err), 1) :=
  ⟨by decide,
   default_policy_success_codes.2.2.1 "TRACE" [200, 202, 204] 503 (by decide) (by decide),
   default_policy_success_codes.2.2.2 Nat (stubTripper (some (responseWith 503)) none)
    (requestWith "TRACE") 0 1 [200, 202, 204] (responseWith 503)
    (by decide) (by decide) (by decide)⟩

/-- C9, as stated, fails: under the default policy the error for GET and status 299 has
the message shown, with an empty pair of brackets where the status should be: it shows
neither the number 299 nor a name of the code, which has none. -/
theorem roundTrip_rejection_message_counterexample :
    (NewStatusCheckingTripper (stubTripper (some (responseWith 299)) none)).RoundTrip
        (some (requestWith "GET")) 0
      = (.returned (some (responseWith 299)) (some (badStatus 299 "GET")), 1) ∧
    (badStatus 299 "GET").Error =
      "(the status code returned is not acceptable for the request method) (), is not an acceptable status for method (GET)" ∧
    StatusText 299 = "" ∧
    mentions (badStatus 299 "GET").Error "299" = false ∧
    identifiesStatus (badStatus 299 "GET").Error 299 = false := by
  decide

/-- C9, amended: for every rejected response (the method has a policy entry, the
underlying error is nil, the status is not in the allowed set) the returned error
wraps the sentinel of its kind, `handleBadStatusCode` of the status, and matches it
under `errors.Is`; its message is
`(<sentinel text>) (<StatusText of the code>), is not an acceptable status for method (<method>)`,
so it contains the request's method string and the code's symbolic name
`http.StatusText(code)`, and it identifies the status code whenever that name is
non-empty. -/
theorem roundTrip_rejection_message {σ : Type} (s : StatusCheckingTripper σ)
    (req : Request) (w w1 : σ) (allowed : StatusSet) (resp : Response)
    (hpol : s.AllowableStatus.lookup req.Method = some allowed)
    (hbase : s.Base (some req) w = (.returned (some resp) none, w1))
    (hmem : resp.StatusCode ∉ allowed) :
    ∃ err : GoError,
      s.RoundTrip (some req) w = (.returned (some resp) (some err), w1) ∧
      err.Unwrap = some (handleBadStatusCode resp.StatusCode) ∧
      errorsIs (some err) (some (handleBadStatusCode resp.StatusCode)) = true ∧
      err.Error =
        "(" ++ (handleBadStatusCode resp.StatusCode).Error ++ ") (" ++ StatusText resp.StatusCode
          ++ "), is not an acceptable status for method (" ++ req.Method ++ ")" ∧
      mentions err.Error req.Method = true ∧
      mentions err.Error (StatusText resp.StatusCode) = true ∧
      (StatusText resp.StatusCode ≠ "" → identifiesStatus err.Error resp.StatusCode = true) := by
  refine ⟨badStatus resp.StatusCode req.Method,
    roundTrip_rejected s req w w1 allowed resp hpol hbase hmem, rfl,
    errorsIs_wrapError _ _ _ (errorsIs_self _), badStatus_Error _ _,
    mentions_badStatus_method _ _, mentions_badStatus_text _ _, ?_⟩
  intro hne
  simp [identifiesStatus, mentions_badStatus_text, hne]

/-- The scenario of C9: default policy, GET, the transport answers 400; the error is of
kind `ErrStatusCode` and its message names GET and Bad Request. -/
theorem roundTrip_rejection_message_witness :
    handleBadStatusCode 400 = ErrStatusCode ∧ StatusText 400 = "Bad Request" ∧
    ∃ err : GoError,
      (NewStatusCheckingTripper (stubTripper (some (responseWith 400)) none)).RoundTrip
          (some (requestWith "GET")) 0
        = (.returned (some (responseWith 400)) (some err), 1) ∧
      err.Unwrap = some (handleBadStatusCode 400) ∧
      errorsIs (some err) (some (handleBadStatusCode 400)) = true ∧
      err.Error =
        "(" ++ (handleBadStatusCode 400).Error ++ ") (" ++ StatusText 400
          ++ "), is not an acceptable status for method (" ++ "GET" ++ ")" ∧
      mentions err.Error "GET" = true ∧
      mentions err.Error (StatusText 400) = true ∧
      (StatusText 400 ≠ "" → identifiesStatus err.Error 400 = true) :=
  ⟨by decide, by decide,
   roundTrip_rejection_message
    (NewStatusCheckingTripper (stubTripper (some (responseWith 400)) none))
    (requestWith "GET") 0 1 [200, 202, 204] (responseWith 400)
    (by decide) (by decide) (by decide)⟩

/-- C10: for every rejected response (the method has a policy entry, the underlying
transport returned a nil error, the status is not in the allowed set) the error
returned matches `ErrServerError` under `errors.Is` if and only if the status code is
500 or more, and matches `ErrStatusCode` if and only if the status code is below 500. -/
theorem roundTrip_kinds_split_at_500 {σ : Type} (s : StatusCheckingTripper σ)
    (req : Request) (w w1 : σ) (allowed : StatusSet) (resp : Response)
    (hpol : s.AllowableStatus.lookup req.Method = some allowed)
    (hbase : s.Base (some req) w = (.returned (some resp) none, w1))
    (hmem : resp.StatusCode ∉ allowed) :
    ∃ err : GoError,
      s.RoundTrip (some req) w = (.returned (some resp) (some err), w1) ∧
      (errorsIs (some err) (some ErrServerError) = true ↔ resp.StatusCode ≥ 500) ∧
      (errorsIs (some err) (some ErrStatusCode) = true ↔ resp.StatusCode < 500) := by
  refine ⟨badStatus resp.StatusCode req.Method,
    roundTrip_rejected s req w w1 allowed resp hpol hbase hmem, ?_, ?_⟩
  · rw [errorsIs_badStatus_ErrServerError]
    exact decide_eq_true_iff
  · rw [errorsIs_badStatus_ErrStatusCode]
    exact decide_eq_true_iff

/-- An instance of C10 just below the split: default policy, HEAD, the transport
answers 499. -/
theorem roundTrip_kinds_split_at_500_witness :
    ∃ err : GoError,
      (NewStatusCheckingTripper (stubTripper (some (responseWith 499)) none)).RoundTrip
          (some (requestWith "HEAD")) 0
        = (.returned (some (responseWith 499)) (some err), 1) ∧
      (errorsIs (some err) (some ErrServerError) = true ↔ (responseWith 499).StatusCode ≥ 500) ∧
      (errorsIs (some err) (some ErrStatusCode) = true ↔ (responseWith 499).StatusCode < 500) :=
  roundTrip_kinds_split_at_500
    (NewStatusCheckingTripper (stubTripper (some (responseWith 499)) none))
    (requestWith "HEAD") 0 1 [200, 204] (responseWith 499)
    (by decide) (by decide) (by decide)

/-! ## Effects, pass-through and the complete case analysis -/

theorem roundTrip_world {σ : Type} (s : StatusCheckingTripper σ) (req : Request) (w : σ) :
    (s.RoundTrip (some req) w).2 = (s.Base (some req) w).2 := by
  cases hpol : s.AllowableStatus.lookup req.Method with
  | none => rw [roundTrip_unlisted s req w hpol]
  | some allowed =>
    rcases hb : s.Base (some req) w with ⟨o, w1⟩
    cases o with
    | panicked => simp [StatusCheckingTripper.RoundTrip, hpol, hb]
    | returned response err =>
      cases err with
      | some e => rw [roundTrip_failed s req w w1 allowed response e hpol hb]
      | none =>
        cases response with
        | none => simp [StatusCheckingTripper.RoundTrip, hpol, hb]
        | some resp =>
          by_cases hmem : resp.StatusCode ∈ allowed
          · rw [roundTrip_accepted s req w w1 allowed resp hpol hb hmem]
          · rw [roundTrip_rejected s req w w1 allowed resp hpol hb hmem]

theorem roundTrip_nil_nil {σ : Type} (s : StatusCheckingTripper σ) (req : Request)
    (w w1 : σ) (allowed : StatusSet)
    (hpol : s.AllowableStatus.lookup req.Method = some allowed)
    (hbase : s.Base (some req) w = (.returned none none, w1)) :
    s.RoundTrip (some req) w = (.panicked, w1) := by
  simp [StatusCheckingTripper.RoundTrip, hpol, hbase]

theorem roundTrip_base_panicked {σ : Type} (s : StatusCheckingTripper σ) (req : Request)
    (w w1 : σ) (hbase : s.Base (some req) w = (.panicked, w1)) :
    s.RoundTrip (some req) w = (.panicked, w1) := by
  cases hpol : s.AllowableStatus.lookup req.Method with
  | none => rw [roundTrip_unlisted s req w hpol, hbase]
  | some allowed => simp [StatusCheckingTripper.RoundTrip, hpol, hbase]

theorem lookup_isSome_iff {β : Type} (k : String) :
    ∀ l : List (String × β), (l.lookup k).isSome = true ↔ k ∈ l.map Prod.fst
  | [] => by simp
  | (k1, v1) :: l => by
    by_cases hk : k = k1
    · subst hk
      simp [List.lookup]
    · have hk1 : (k == k1) = false := by simpa using hk
      simp [List.lookup, hk1, hk, lookup_isSome_iff k l]

theorem errorsIs_transportFailure_errorString (e : GoError) (addr : Nat) (text : String) :
    errorsIs (some (transportFailure e)) (some (.errorString addr text))
      = errorsIs (some e) (some (.errorString addr text)) := by
  simp [errorsIs, transportFailure, GoError.chainHas]

/-- C11: for every (non-nil) request and every policy, `RoundTrip` calls the underlying
transport exactly once and hands it the very request it received: with a transport
that records its calls, the log grows by that one request, and the rest of the world
is what one call of the transport on that request leaves; for any transport
whatever, the world after `RoundTrip` is the world after that one call, so `RoundTrip`
has no effect of its own. -/
theorem roundTrip_calls_base_once :
    (∀ (σ : Type) (policy : List (String × StatusSet)) (tripper : RoundTripper σ)
        (req : Request) (w : σ) (log : List (Option Request)),
      ((StatusCheckingTripper.mk policy (recording tripper)).RoundTrip (some req) (w, log)).2
        = ((tripper (some req) w).2, log ++ [some req])) ∧
    (∀ (σ : Type) (s : StatusCheckingTripper σ) (req : Request) (w : σ),
      (s.RoundTrip (some req) w).2 = (s.Base (some req) w).2) :=
  ⟨fun _ policy tripper req w log =>
      roundTrip_world (StatusCheckingTripper.mk policy (recording tripper)) req (w, log),
   fun _ s req w => roundTrip_world s req w⟩

/-- An instance of C11: under the default policy a GET request answered with 500 is
rejected, and the recording stub has by then been called once, with that request. -/
theorem roundTrip_calls_base_once_witness :
    ((StatusCheckingTripper.mk AllowableStatusCodes
        (recording (stubTripper (some (responseWith 500)) none))).RoundTrip
        (some (requestWith "GET")) (0, [])).2
      = (1, [some (requestWith "GET")]) :=
  roundTrip_calls_base_once.1 Nat AllowableStatusCodes
    (stubTripper (some (responseWith 500)) none) (requestWith "GET") 0 []

/-- C12: `AllowableStatusCodes` has no entry for OPTIONS, so under the default policy
an OPTIONS request passes through: whatever status code the response has that the
underlying transport returns with a nil error, `RoundTrip` returns that response and
a nil error. -/
theorem roundTrip_options_unchecked :
    AllowableStatusCodes.lookup MethodOptions = none ∧
    ∀ (σ : Type) (tripper : RoundTripper σ) (req : Request) (w w1 : σ) (resp : Response),
      req.Method = MethodOptions →
      tripper (some req) w = (.returned (some resp) none, w1) →
      (NewStatusCheckingTripper tripper).RoundTrip (some req) w
        = (.returned (some resp) none, w1) := by
  have hnone : AllowableStatusCodes.lookup MethodOptions = none := by decide
  refine ⟨hnone, ?_⟩
  intro σ tripper req w w1 resp hm hb
  have hpol : (NewStatusCheckingTripper tripper).AllowableStatus.lookup req.Method = none := by
    rw [hm]
    exact hnone
  rw [roundTrip_unlisted (NewStatusCheckingTripper tripper) req w hpol]
  exact hb

/-- Instances of C12: OPTIONS with 404 and with 500 under the default policy. -/
theorem roundTrip_options_unchecked_witness :
    (NewStatusCheckingTripper (stubTripper (some (responseWith 404)) none)).RoundTrip
        (some (requestWith "OPTIONS")) 0
      = (.returned (some (responseWith 404)) none, 1) ∧
    (NewStatusCheckingTripper (stubTripper (some (responseWith 500)) none)).RoundTrip
        (some (requestWith "OPTIONS")) 0
      = (.returned (some (responseWith 500)) none, 1) :=
  ⟨roundTrip_options_unchecked.2 Nat (stubTripper (some (responseWith 404)) none)
      (requestWith "OPTIONS") 0 1 (responseWith 404) (by decide) (by decide),
   roundTrip_options_unchecked.2 Nat (stubTripper (some (responseWith 500)) none)
      (requestWith "OPTIONS") 0 1 (responseWith 500) (by decide) (by decide)⟩

/-- C13: for a method with a policy entry and a response that the transport returns
with a nil error, `RoundTrip` returns that response, and its error is nil if and only
if the response's status code is an element of the method's allowed set: no range is
consulted. A code outside the set and below 500, in the 2xx range or not, gives an
error matching `ErrStatusCode`. -/
theorem roundTrip_exact_membership {σ : Type} (s : StatusCheckingTripper σ)
    (req : Request) (w w1 : σ) (allowed : StatusSet) (resp : Response)
    (hpol : s.AllowableStatus.lookup req.Method = some allowed)
    (hbase : s.Base (some req) w = (.returned (some resp) none, w1)) :
    ∃ err : Option GoError,
      s.RoundTrip (some req) w = (.returned (some resp) err, w1) ∧
      (err = none ↔ resp.StatusCode ∈ allowed) ∧
      (resp.StatusCode ∉ allowed → resp.StatusCode < 500 →
        err ≠ none ∧ errorsIs err (some ErrStatusCode) = true) := by
  by_cases hmem : resp.StatusCode ∈ allowed
  · exact ⟨none, roundTrip_accepted s req w w1 allowed resp hpol hbase hmem,
      by simp [hmem], fun h => absurd hmem h⟩
  · refine ⟨some (badStatus resp.StatusCode req.Method),
      roundTrip_rejected s req w w1 allowed resp hpol hbase hmem, by simp [hmem], ?_⟩
    intro _ hlt
    refine ⟨by simp, ?_⟩
    rw [errorsIs_badStatus_ErrStatusCode]
    exact decide_eq_true hlt

/-- The scenarios of C13: under the default policy GET with 201 and GET with 206 are
rejected with an error matching `ErrStatusCode`, although both codes are 2xx codes. -/
theorem roundTrip_exact_membership_witness :
    (∃ err : Option GoError,
      (NewStatusCheckingTripper (stubTripper (some (responseWith 201)) none)).RoundTrip
          (some (requestWith "GET")) 0
        = (.returned (some (responseWith 201)) err, 1) ∧
      err ≠ none ∧ errorsIs err (some ErrStatusCode) = true) ∧
    (∃ err : Option GoError,
      (NewStatusCheckingTripper (stubTripper (some (responseWith 206)) none)).RoundTrip
          (some (requestWith "GET")) 0
        = (.returned (some (responseWith 206)) err, 1) ∧
      err ≠ none ∧ errorsIs err (some ErrStatusCode) = true) := by
  constructor
  · obtain ⟨err, h1, -, h3⟩ := roundTrip_exact_membership
      (NewStatusCheckingTripper (stubTripper (some (responseWith 201)) none))
      (requestWith "GET") 0 1 [200, 202, 204] (responseWith 201) (by decide) (by decide)
    exact ⟨err, h1, h3 (by decide) (by decide)⟩
  · obtain ⟨err, h1, -, h3⟩ := roundTrip_exact_membership
      (NewStatusCheckingTripper (stubTripper (some (responseWith 206)) none))
      (requestWith "GET") 0 1 [200, 202, 204] (responseWith 206) (by decide) (by decide)
    exact ⟨err, h1, h3 (by decide) (by decide)⟩

theorem roundTrip_nil_error_inv {σ : Type} (s : StatusCheckingTripper σ) (req : Request)
    (w w1 : σ) (allowed : StatusSet) (response : Option Response)
    (hpol : s.AllowableStatus.lookup req.Method = some allowed)
    (h : s.RoundTrip (some req) w = (.returned response none, w1)) :
    ∃ resp : Response, response = some resp ∧ resp.StatusCode ∈ allowed := by
  rcases hb : s.Base (some req) w with ⟨o, w2⟩
  cases o with
  | panicked =>
    rw [roundTrip_base_panicked s req w w2 hb] at h
    cases h
  | returned r err =>
    cases err with
    | some e =>
      rw [roundTrip_failed s req w w2 allowed r e hpol hb] at h
      cases h
    | none =>
      cases r with
      | none =>
        rw [roundTrip_nil_nil s req w w2 allowed hpol hb] at h
        cases h
      | some resp =>
        by_cases hmem : resp.StatusCode ∈ allowed
        · rw [roundTrip_accepted s req w w2 allowed resp hpol hb hmem] at h
          cases h
          exact ⟨resp, rfl, hmem⟩
        · rw [roundTrip_rejected s req w w2 allowed resp hpol hb hmem] at h
          cases h

/-- C14, as stated, fails for a method without a policy entry: under the default policy
a CUSTOM request whose transport returns a response together with an error gets back
that very error, which wraps nothing, and not a wrapper of it. -/
theorem roundTrip_no_crash_counterexample :
    AllowableStatusCodes.lookup (requestWith "CUSTOM").Method = none ∧
    (NewStatusCheckingTripper (stubTripper (some (responseWith 200)) (some anError))).RoundTrip
        (some (requestWith "CUSTOM")) 0
      = (.returned (some (responseWith 200)) (some anError), 1) ∧
    anError.Unwrap = none ∧
    anError ≠ transportFailure anError ∧
    ¬ ∃ e1 : GoError,
      (NewStatusCheckingTripper (stubTripper (some (responseWith 200))
          (some anError))).RoundTrip (some (requestWith "CUSTOM")) 0
        = (.returned (some (responseWith 200)) (some e1), 1) ∧
      e1.Unwrap = some anError := by
  have h1 : (NewStatusCheckingTripper (stubTripper (some (responseWith 200))
      (some anError))).RoundTrip (some (requestWith "CUSTOM")) 0
        = (.returned (some (responseWith 200)) (some anError), 1) := by
    decide
  refine ⟨by decide, h1, by decide, by decide, ?_⟩
  rintro ⟨e1, h, hu⟩
  rw [h1] at h
  cases h
  cases hu

/-- C14, amended: suppose the underlying transport returns, for a non-nil request, the
pair `(response, err)`. Then `RoundTrip` panics exactly when the method has a policy
entry, `err` is nil and `response` is nil, the one place where the response is
dereferenced. So if the transport gives a non-nil response whenever its error is nil,
`RoundTrip` returns, with the transport's response pointer. And when the transport's
error `e` is non-nil, `RoundTrip` returns the response pointer, populated or nil, with
a non-nil error whose chain holds `e`: for a method with a policy entry that error
is the wrapper of `e`, for a method without one it is `e` itself, not wrapped. -/
theorem roundTrip_no_crash {σ : Type} (s : StatusCheckingTripper σ) (req : Request)
    (w w1 : σ) (response : Option Response) (err : Option GoError)
    (hbase : s.Base (some req) w = (.returned response err, w1)) :
    ((s.RoundTrip (some req) w).1 = .panicked ↔
      (s.AllowableStatus.lookup req.Method ≠ none ∧ err = none ∧ response = none)) ∧
    ((err = none → response ≠ none) →
      ∃ err1 : Option GoError, s.RoundTrip (some req) w = (.returned response err1, w1)) ∧
    (∀ e : GoError, err = some e →
      ∃ e1 : GoError, s.RoundTrip (some req) w = (.returned response (some e1), w1) ∧
        errorsIs (some e1) (some e) = true ∧
        (s.AllowableStatus.lookup req.Method ≠ none →
          e1 = transportFailure e ∧ e1.Unwrap = some e) ∧
        (s.AllowableStatus.lookup req.Method = none → e1 = e)) := by
  cases hpol : s.AllowableStatus.lookup req.Method with
  | none =>
    have h := roundTrip_unlisted s req w hpol
    rw [hbase] at h
    refine ⟨by simp [h], fun _ => ⟨err, h⟩, ?_⟩
    intro e he
    subst he
    exact ⟨e, h, errorsIs_self e, fun hne => absurd rfl hne, fun _ => rfl⟩
  | some allowed =>
    cases err with
    | some e =>
      have h := roundTrip_failed s req w w1 allowed response e hpol hbase
      refine ⟨by simp [h], fun _ => ⟨_, h⟩, ?_⟩
      intro e0 he
      cases he
      exact ⟨transportFailure e, h, errorsIs_wrapError _ e e (errorsIs_self e),
        fun _ => ⟨rfl, rfl⟩, fun hn => Option.noConfusion hn⟩
    | none =>
      cases response with
      | none =>
        have h := roundTrip_nil_nil s req w w1 allowed hpol hbase
        refine ⟨by simp [h], fun hr => absurd rfl (hr rfl), ?_⟩
        intro e he
        cases he
      | some resp =>
        by_cases hmem : resp.StatusCode ∈ allowed
        · have h := roundTrip_accepted s req w w1 allowed resp hpol hbase hmem
          refine ⟨by simp [h], fun _ => ⟨_, h⟩, ?_⟩
          intro e he
          cases he
        · have h := roundTrip_rejected s req w w1 allowed resp hpol hbase hmem
          refine ⟨by simp [h], fun _ => ⟨_, h⟩, ?_⟩
          intro e he
          cases he

/-- Instances of the amended C14 under the default policy, the transport failing with an
error and a nil response: for GET `RoundTrip` returns the nil response and the wrapper
of the error, for the unlisted method CUSTOM the nil response and the error itself. -/
theorem roundTrip_no_crash_witness :
    (∃ e1 : GoError,
      (NewStatusCheckingTripper (stubTripper none (some anError))).RoundTrip
          (some (requestWith "GET")) 0 = (.returned none (some e1), 1) ∧
      errorsIs (some e1) (some anError) = true ∧
      e1 = transportFailure anError ∧ e1.Unwrap = some anError) ∧
    (∃ e1 : GoError,
      (NewStatusCheckingTripper (stubTripper none (some anError))).RoundTrip
          (some (requestWith "CUSTOM")) 0 = (.returned none (some e1), 1) ∧
      errorsIs (some e1) (some anError) = true ∧
      e1 = anError) := by
  constructor
  · obtain ⟨e1, h1, h2, h3, -⟩ :=
      (roundTrip_no_crash (NewStatusCheckingTripper (stubTripper none (some anError)))
        (requestWith "GET") 0 1 none (some anError) (by decide)).2.2 anError rfl
    exact ⟨e1, h1, h2, h3 (by decide)⟩
  · obtain ⟨e1, h1, h2, -, h4⟩ :=
      (roundTrip_no_crash (NewStatusCheckingTripper (stubTripper none (some anError)))
        (requestWith "CUSTOM") 0 1 none (some anError) (by decide)).2.2 anError rfl
    exact ⟨e1, h1, h2, h4 (by decide)⟩

/-- C15: suppose the underlying transport returns `(response, err)` with a non-nil
response whenever `err` is nil. Then `RoundTrip` returns `response` with an error that
is nil if and only if `err` is nil and either the request's method has no policy entry
or the response's status code is a member of the method's allowed set. -/
theorem roundTrip_nil_error_iff {σ : Type} (s : StatusCheckingTripper σ) (req : Request)
    (w w1 : σ) (response : Option Response) (err : Option GoError)
    (hbase : s.Base (some req) w = (.returned response err, w1))
    (hresp : err = none → response ≠ none) :
    ∃ err1 : Option GoError,
      s.RoundTrip (some req) w = (.returned response err1, w1) ∧
      (err1 = none ↔
        err = none ∧
          (s.AllowableStatus.lookup req.Method = none ∨
            ∃ (allowed : StatusSet) (resp : Response),
              s.AllowableStatus.lookup req.Method = some allowed ∧ response = some resp ∧
                resp.StatusCode ∈ allowed)) := by
  cases hpol : s.AllowableStatus.lookup req.Method with
  | none =>
    have h := roundTrip_unlisted s req w hpol
    rw [hbase] at h
    exact ⟨err, h, by simp⟩
  | some allowed =>
    cases err with
    | some e =>
      exact ⟨_, roundTrip_failed s req w w1 allowed response e hpol hbase, by simp⟩
    | none =>
      cases response with
      | none => exact absurd rfl (hresp rfl)
      | some resp =>
        by_cases hmem : resp.StatusCode ∈ allowed
        · exact ⟨_, roundTrip_accepted s req w w1 allowed resp hpol hbase hmem, by simp [hmem]⟩
        · exact ⟨_, roundTrip_rejected s req w w1 allowed resp hpol hbase hmem, by simp [hmem]⟩

/-- An instance of C15: default policy, PUT, the transport answers 201, which PUT
allows; the error is nil. -/
theorem roundTrip_nil_error_iff_witness :
    ∃ err1 : Option GoError,
      (NewStatusCheckingTripper (stubTripper (some (responseWith 201)) none)).RoundTrip
          (some (requestWith "PUT")) 0 = (.returned (some (responseWith 201)) err1, 1) ∧
      (err1 = none ↔
        (none : Option GoError) = none ∧
          ((NewStatusCheckingTripper (stubTripper (some (responseWith 201))
              none)).AllowableStatus.lookup (requestWith "PUT").Method = none ∨
            ∃ (allowed : StatusSet) (resp : Response),
              (NewStatusCheckingTripper (stubTripper (some (responseWith 201))
                none)).AllowableStatus.lookup (requestWith "PUT").Method = some allowed ∧
              some (responseWith 201) = some resp ∧ resp.StatusCode ∈ allowed)) :=
  roundTrip_nil_error_iff (NewStatusCheckingTripper (stubTripper (some (responseWith 201)) none))
    (requestWith "PUT") 0 1 (some (responseWith 201)) none (by decide) (by decide)

/-- C16: take a policy, a base transport and a (non-nil) request, and run from the same
world the tripper that wraps the base once and the tripper that wraps that tripper
again with the same policy. The two leave the same world, and the second panics
exactly when the first does. When the first returns `(response, err)`, the second
returns the same `response` with an error that is nil exactly when `err` is nil and
that matches `ErrStatusCode`, respectively `ErrServerError`, under `errors.Is` exactly
when `err` does. -/
theorem decorate_twice {σ : Type} (policy : List (String × StatusSet))
    (tripper : RoundTripper σ) (req : Request) (w : σ) :
    (decorate policy (decorate policy tripper) (some req) w).2
        = (decorate policy tripper (some req) w).2 ∧
    ((decorate policy (decorate policy tripper) (some req) w).1 = .panicked ↔
      (decorate policy tripper (some req) w).1 = .panicked) ∧
    (∀ (response : Option Response) (err : Option GoError) (w1 : σ),
      decorate policy tripper (some req) w = (.returned response err, w1) →
      ∃ err2 : Option GoError,
        decorate policy (decorate policy tripper) (some req) w
          = (.returned response err2, w1) ∧
        (err2 = none ↔ err = none) ∧
        errorsIs err2 (some ErrStatusCode) = errorsIs err (some ErrStatusCode) ∧
        errorsIs err2 (some ErrServerError) = errorsIs err (some ErrServerError)) := by
  have third : ∀ (response : Option Response) (err : Option GoError) (w1 : σ),
      decorate policy tripper (some req) w = (.returned response err, w1) →
      ∃ err2 : Option GoError,
        decorate policy (decorate policy tripper) (some req) w
          = (.returned response err2, w1) ∧
        (err2 = none ↔ err = none) ∧
        errorsIs err2 (some ErrStatusCode) = errorsIs err (some ErrStatusCode) ∧
        errorsIs err2 (some ErrServerError) = errorsIs err (some ErrServerError) := by
    intro response err w1 h
    cases hpol : policy.lookup req.Method with
    | none =>
      refine ⟨err, ?_, Iff.rfl, rfl, rfl⟩
      have h2 := roundTrip_unlisted ⟨policy, decorate policy tripper⟩ req w hpol
      exact h2.trans h
    | some allowed =>
      cases err with
      | some e =>
        exact ⟨some (transportFailure e),
          roundTrip_failed ⟨policy, decorate policy tripper⟩ req w w1 allowed response e hpol h,
          by simp, errorsIs_transportFailure_errorString e _ _,
          errorsIs_transportFailure_errorString e _ _⟩
      | none =>
        obtain ⟨resp, hr, hmem⟩ :=
          roundTrip_nil_error_inv ⟨policy, tripper⟩ req w w1 allowed response hpol h
        subst hr
        exact ⟨none,
          roundTrip_accepted ⟨policy, decorate policy tripper⟩ req w w1 allowed resp hpol h hmem,
          Iff.rfl, rfl, rfl⟩
  refine ⟨roundTrip_world ⟨policy, decorate policy tripper⟩ req w, ?_, third⟩
  rcases hi : decorate policy tripper (some req) w with ⟨o, w1⟩
  cases o with
  | panicked =>
    have h2 := roundTrip_base_panicked ⟨policy, decorate policy tripper⟩ req w w1 hi
    have h3 : decorate policy (decorate policy tripper) (some req) w = (.panicked, w1) := h2
    simp [h3]
  | returned response err =>
    obtain ⟨err2, h2, -⟩ := third response err w1 hi
    simp [h2]

/-- Instances of C16 under the default policy with GET: once wrapped a 503 answer gives
an error, and twice wrapped it gives the same response with an error that again
matches `ErrServerError` and not `ErrStatusCode`. -/
theorem decorate_twice_witness :
    decorate AllowableStatusCodes (stubTripper (some (responseWith 503)) none)
        (some (requestWith "GET")) 0
      = (.returned (some (responseWith 503)) (some (badStatus 503 "GET")), 1) ∧
    ∃ err2 : Option GoError,
      decorate AllowableStatusCodes
          (decorate AllowableStatusCodes (stubTripper (some (responseWith 503)) none))
          (some (requestWith "GET")) 0
        = (.returned (some (responseWith 503)) err2, 1) ∧
      (err2 = none ↔ some (badStatus 503 "GET") = none) ∧
      errorsIs err2 (some ErrStatusCode)
        = errorsIs (some (badStatus 503 "GET")) (some ErrStatusCode) ∧
      errorsIs err2 (some ErrServerError)
        = errorsIs (some (badStatus 503 "GET")) (some ErrServerError) :=
  ⟨by decide,
   (decorate_twice AllowableStatusCodes (stubTripper (some (responseWith 503)) none)
      (requestWith "GET") 0).2.2 (some (responseWith 503)) (some (badStatus 503 "GET")) 1
      (by decide)⟩

/-- C17: the lookup of the default policy is exact: a method string has an entry if and
only if it is one of the eight names of the table, letter for letter. The strings
`get` and the empty string have none, so under the default policy a request with
either of them is handed through unchecked: a response that the transport returns
with a nil error, status 500 included, comes back with a nil error. -/
theorem roundTrip_method_case_sensitive :
    (∀ m : String, (AllowableStatusCodes.lookup m).isSome = true ↔
      m ∈ [MethodGet, MethodHead, MethodPost, MethodPut, MethodPatch, MethodDelete,
        MethodConnect, MethodTrace]) ∧
    AllowableStatusCodes.lookup "get" = none ∧
    AllowableStatusCodes.lookup "" = none ∧
    (∀ (σ : Type) (tripper : RoundTripper σ) (req : Request) (w w1 : σ) (resp : Response),
      req.Method = "get" ∨ req.Method = "" →
      tripper (some req) w = (.returned (some resp) none, w1) →
      (NewStatusCheckingTripper tripper).RoundTrip (some req) w
        = (.returned (some resp) none, w1)) := by
  have hget : AllowableStatusCodes.lookup "get" = none := by decide
  have hempty : AllowableStatusCodes.lookup "" = none := by decide
  refine ⟨fun m => lookup_isSome_iff m AllowableStatusCodes, hget, hempty, ?_⟩
  intro σ tripper req w w1 resp hm hb
  have hpol : (NewStatusCheckingTripper tripper).AllowableStatus.lookup req.Method = none := by
    rcases hm with h | h
    · rw [h]
      exact hget
    · rw [h]
      exact hempty
  rw [roundTrip_unlisted (NewStatusCheckingTripper tripper) req w hpol]
  exact hb

/-- The scenarios of C17: under the default policy a 500 answer to a request with the
method `get`, and to one with the empty method, comes back with a nil error. -/
theorem roundTrip_method_case_sensitive_witness :
    (NewStatusCheckingTripper (stubTripper (some (responseWith 500)) none)).RoundTrip
        (some (requestWith "get")) 0
      = (.returned (some (responseWith 500)) none, 1) ∧
    (NewStatusCheckingTripper (stubTripper (some (responseWith 500)) none)).RoundTrip
        (some (requestWith "")) 0
      = (.returned (some (responseWith 500)) none, 1) :=
  ⟨roundTrip_method_case_sensitive.2.2.2 Nat (stubTripper (some (responseWith 500)) none)
      (requestWith "get") 0 1 (responseWith 500) (Or.inl rfl) (by decide),
   roundTrip_method_case_sensitive.2.2.2 Nat (stubTripper (some (responseWith 500)) none)
      (requestWith "") 0 1 (responseWith 500) (Or.inr rfl) (by decide)⟩

end httpclient
